import Mathlib

/-!
Verification of the slide-deck generator `create_angular_presentation.py`.

The script builds a 14-slide deck with the python-pptx library and saves it to
`/workspace/Angular_Optimization_TED_Talk.pptx`.  The embedding below models the
document object model the script manipulates (presentation, slides, text boxes,
paragraphs, fills), the literal color table, and every slide-building function,
with python dictionary subscripts made fallible (`Except` with a `KeyError` payload)
exactly as in CPython.  Lengths are exact rationals measured in EMU, following
`pptx.util.Inches` and `pptx.util.Pt`; every numeric literal of the source is a
finite decimal, so rational arithmetic is exact.

Modelling notes, applied uniformly:
* mutation of a freshly created slide/text box is collected into one record, and the
  slide is appended to the presentation when the building function completes; a
  function that raises discards its in-progress state, which is unobservable in the
  source because nothing catches the exception and the object is never saved;
* the `colors[...]` subscripts of each function are performed in order of first
  occurrence in the source; repeated subscripts of the same key are collapsed,
  which preserves the sequence of keys tried up to the first failure.
-/

/-- RGB color triple; embeds `pptx.dml.color.RGBColor`. -/
structure RGB where
  r : Nat
  g : Nat
  b : Nat
deriving DecidableEq, Repr

/-- Constructor mirroring the `RGBColor(r, g, b)` calls of the source. -/
def RGBColor (r g b : Nat) : RGB := ⟨r, g, b⟩

/-- Length in EMU: `pptx.util.Inches` (one inch is 914400 EMU). -/
def Inches (x : ℚ) : ℚ := x * 914400

/-- Length in EMU: `pptx.util.Pt` (one point is 12700 EMU). -/
def Pt (x : ℚ) : ℚ := x * 12700

/-- Paragraph alignment, embedding `pptx.enum.text.PP_ALIGN`. -/
inductive Align where
  | left
  | center
  | right
deriving DecidableEq, Repr

def PP_ALIGN.CENTER : Align := Align.center

def PP_ALIGN.RIGHT : Align := Align.right

/-- Python exception raised by the script; the only reachable one is a failed
dictionary subscript. -/
inductive PyError where
  | keyError (k : String)
deriving DecidableEq, Repr

/-- Background fill of a slide.  python-pptx supports solid and gradient fills;
the script only ever calls `fill.solid()` and sets one `fore_color`. -/
inductive Fill where
  | noFill
  | solid (c : RGB)
  | gradient (stops : List RGB)
deriving DecidableEq, Repr

/-- One paragraph of a text frame: its text and the font attributes the script sets
(`none` where the script leaves the attribute at its default). -/
structure Para where
  text : String
  size : Option ℚ
  bold : Bool
  fontName : Option String
  color : Option RGB
  align : Option Align
deriving DecidableEq, Repr

def mkPara (text : String) (size : Option ℚ) (bold : Bool) (fontName : Option String)
    (color : Option RGB) (align : Option Align) : Para :=
  ⟨text, size, bold, fontName, color, align⟩

/-- A positioned text box, as produced by `slide.shapes.add_textbox`. -/
structure TextBox where
  left : ℚ
  top : ℚ
  width : ℚ
  height : ℚ
  paras : List Para
deriving DecidableEq, Repr

def add_textbox (left top width height : ℚ) (paras : List Para) : TextBox :=
  ⟨left, top, width, height, paras⟩

/-- One slide: the index of the layout it was created from, its background fill,
its shapes in creation order, and its speaker-notes text. -/
structure Slide where
  layout : Nat
  background : Fill
  shapes : List TextBox
  notes : String
deriving DecidableEq, Repr

/-- The presentation object: slide dimensions in EMU and the slide sequence. -/
structure Prs where
  slide_width : ℚ
  slide_height : ℚ
  slides : List Slide
deriving DecidableEq, Repr

/-- Index of the blank layout: every function uses `prs.slide_layouts[6]`. -/
def blank_layout : Nat := 6

/-- Appending a finished slide, as `prs.slides.add_slide` plus the subsequent
mutations of that slide. -/
def add_slide (prs : Prs) (s : Slide) : Prs :=
  ⟨prs.slide_width, prs.slide_height, prs.slides ++ [s]⟩

/-- Python dictionary subscript `m[k]`: the value, or a raised `KeyError`. -/
def dictGet (m : List (String × RGB)) (k : String) : Except PyError RGB :=
  match m.find? (fun p => p.1 == k) with
  | some p => Except.ok p.2
  | none => Except.error (PyError.keyError k)

/-- The literal color table defined at lines 26-67 of the source, in source order. -/
def colors : List (String × RGB) :=
  [("title_bg_start", RGBColor 26 26 46),
   ("title_bg_end", RGBColor 22 33 62),
   ("content_bg", RGBColor 255 255 255),
   ("angular_red", RGBColor 221 0 49),
   ("lighthouse_blue", RGBColor 66 133 244),
   ("performance_green", RGBColor 52 168 83),
   ("light_blue", RGBColor 135 206 235),
   ("dark_blue", RGBColor 26 26 46),
   ("dark_gray", RGBColor 51 51 51),
   ("white", RGBColor 255 255 255),
   ("light_gray", RGBColor 200 200 200),
   ("red_gradient_start", RGBColor 255 107 107),
   ("red_gradient_end", RGBColor 255 142 142),
   ("blue_gradient_start", RGBColor 66 133 244),
   ("blue_gradient_end", RGBColor 135 206 235),
   ("green_gradient_start", RGBColor 52 168 83),
   ("green_gradient_end", RGBColor 144 238 144),
   ("orange_gradient_start", RGBColor 251 188 4),
   ("orange_gradient_end", RGBColor 255 215 0),
   ("purple_gradient_start", RGBColor 156 39 176),
   ("purple_gradient_end", RGBColor 225 190 231),
   ("teal_gradient_start", RGBColor 0 150 136),
   ("teal_gradient_end", RGBColor 128 203 196),
   ("indigo_gradient_start", RGBColor 63 81 181),
   ("indigo_gradient_end", RGBColor 159 168 218),
   ("dark_gradient_start", RGBColor 44 62 80),
   ("dark_gradient_end", RGBColor 52 73 94),
   ("success_gradient_start", RGBColor 39 174 96),
   ("success_gradient_end", RGBColor 88 214 141),
   ("future_gradient_start", RGBColor 142 68 173),
   ("future_gradient_end", RGBColor 187 143 206),
   ("action_gradient_start", RGBColor 231 76 60),
   ("action_gradient_end", RGBColor 241 148 138),
   ("discussion_gradient_start", RGBColor 52 152 219),
   ("discussion_gradient_end", RGBColor 133 193 233),
   ("gratitude_gradient_start", RGBColor 243 156 18),
   ("gratitude_gradient_end", RGBColor 247 220 111)]

/-- Embeds `create_title_slide` (source lines 113-182). -/
def create_title_slide (prs : Prs) (cs : List (String × RGB)) : Except PyError Prs := do
  let title_bg_start ← dictGet cs "title_bg_start"
  let white ← dictGet cs "white"
  let light_blue ← dictGet cs "light_blue"
  let angular_red ← dictGet cs "angular_red"
  let lighthouse_blue ← dictGet cs "lighthouse_blue"
  let performance_green ← dictGet cs "performance_green"
  let title_box := add_textbox (Inches 1) (Inches 2) (Inches (1133/100)) (Inches (3/2))
    [mkPara "The Zen of Angular Optimization: A Lighthouse-Guided Journey" (some (Pt 48)) true
      (some "Roboto") (some white) (some PP_ALIGN.CENTER)]
  let subtitle_box := add_textbox (Inches 1) (Inches (19/5)) (Inches (1133/100)) (Inches (4/5))
    [mkPara "From 4.5MB bundles to blazing-fast load times" (some (Pt 24)) false
      (some "Roboto") (some light_blue) (some PP_ALIGN.CENTER)]
  let angular_box := add_textbox (Inches (1/2)) (Inches (1/2)) (Inches 2) (Inches (4/5))
    [mkPara "Angular" (some (Pt 20)) true none (some angular_red) none]
  let lighthouse_box := add_textbox (Inches (1083/100)) (Inches (1/2)) (Inches 2) (Inches (4/5))
    [mkPara "Lighthouse" (some (Pt 20)) true none (some lighthouse_blue) (some PP_ALIGN.RIGHT)]
  let perf_box := add_textbox (Inches 4) (Inches (26/5)) (Inches (533/100)) (Inches (4/5))
    [mkPara "Performance Score: 45 → 78" (some (Pt 20)) false none (some performance_green)
      (some PP_ALIGN.CENTER)]
  pure (add_slide prs ⟨blank_layout, Fill.solid title_bg_start,
    [title_box, subtitle_box, angular_box, lighthouse_box, perf_box],
    "Hook: Start with \x273 seconds. That\x27s all you have.\x27 Make eye contact, pause for dramatic effect. Frame this as an opportunity, not a problem."⟩)

/-- Embeds `create_hook_slide` (source lines 184-240). -/
def create_hook_slide (prs : Prs) (cs : List (String × RGB)) : Except PyError Prs := do
  let red_gradient_start ← dictGet cs "red_gradient_start"
  let white ← dictGet cs "white"
  let light_gray ← dictGet cs "light_gray"
  let countdown_box := add_textbox (Inches 2) (Inches (3/2)) (Inches (933/100)) (Inches 2)
    [mkPara "3" (some (Pt 120)) true (some "Roboto") (some white) (some PP_ALIGN.CENTER)]
  let subtitle_box := add_textbox (Inches 1) (Inches (19/5)) (Inches (1133/100)) (Inches (4/5))
    [mkPara "That\x27s All You Have" (some (Pt 36)) false (some "Roboto") (some white)
      (some PP_ALIGN.CENTER)]
  let stats : List String :=
    ["53% of users abandon if load > 3 seconds",
     "4.47 MB initial bundle",
     "Performance Score: 45/100"]
  let stats_box := add_textbox (Inches 1) (Inches 5) (Inches (1133/100)) (Inches (3/2))
    (stats.map (fun stat =>
      mkPara stat (some (Pt 20)) false (some "Roboto") (some light_gray) (some PP_ALIGN.CENTER)))
  pure (add_slide prs ⟨blank_layout, Fill.solid red_gradient_start,
    [countdown_box, subtitle_box, stats_box],
    "Don\x27t shame the current state. Frame as \x27opportunity for improvement\x27. Use hand gestures to emphasize the 3-second countdown."⟩)

/-- Embeds `create_lighthouse_metrics_slide` (source lines 242-308). -/
def create_lighthouse_metrics_slide (prs : Prs) (cs : List (String × RGB)) :
    Except PyError Prs := do
  let blue_gradient_start ← dictGet cs "blue_gradient_start"
  let white ← dictGet cs "white"
  let performance_green ← dictGet cs "performance_green"
  let lighthouse_blue ← dictGet cs "lighthouse_blue"
  let orange_gradient_start ← dictGet cs "orange_gradient_start"
  let light_gray ← dictGet cs "light_gray"
  let title_box := add_textbox (Inches 1) (Inches (1/2)) (Inches (1133/100)) (Inches 1)
    [mkPara "What Lighthouse Really Measures" (some (Pt 36)) true (some "Roboto") (some white)
      (some PP_ALIGN.CENTER)]
  let metrics : List (String × String × String × RGB) :=
    [("FCP", "First Contentful Paint", "When users see something", performance_green),
     ("LCP", "Largest Contentful Paint", "When they see what matters", lighthouse_blue),
     ("TTI", "Time to Interactive", "When they can do something", orange_gradient_start),
     ("CLS", "Cumulative Layout Shift", "Whether the page is stable", RGBColor 255 100 100)]
  let y_start : ℚ := 2
  let metric_boxes := metrics.enum.flatMap (fun im =>
    match im with
    | (i, abbr, full, desc, color) =>
      [add_textbox (Inches 1) (Inches (y_start + (i : ℚ) * (6/5))) (Inches (3/2)) (Inches (4/5))
        [mkPara abbr (some (Pt 24)) true none (some color) (some PP_ALIGN.CENTER)],
       add_textbox (Inches 3) (Inches (y_start + (i : ℚ) * (6/5))) (Inches 4) (Inches (2/5))
        [mkPara full (some (Pt 18)) true none (some white) none],
       add_textbox (Inches 3) (Inches (y_start + (i : ℚ) * (6/5) + 2/5)) (Inches 8) (Inches (3/5))
        [mkPara desc (some (Pt 16)) false none (some light_gray) none]])
  pure (add_slide prs ⟨blank_layout, Fill.solid blue_gradient_start,
    title_box :: metric_boxes,
    "Use hand gestures to show timeline progression. Emphasize that Lighthouse measures user experience, not just speed."⟩)

/-- Embeds `create_approach_slide` (source lines 310-378). -/
def create_approach_slide (prs : Prs) (cs : List (String × RGB)) : Except PyError Prs := do
  let green_gradient_start ← dictGet cs "green_gradient_start"
  let white ← dictGet cs "white"
  let lighthouse_blue ← dictGet cs "lighthouse_blue"
  let orange_gradient_start ← dictGet cs "orange_gradient_start"
  let performance_green ← dictGet cs "performance_green"
  let light_gray ← dictGet cs "light_gray"
  let title_box := add_textbox (Inches 1) (Inches (1/2)) (Inches (1133/100)) (Inches 1)
    [mkPara "Measure → Analyze → Optimize" (some (Pt 36)) true (some "Roboto") (some white)
      (some PP_ALIGN.CENTER)]
  let steps : List (String × String × String × RGB) :=
    [("1", "Measure", "Lighthouse CI baseline", lighthouse_blue),
     ("2", "Analyze", "Bundle analysis & bottleneck identification", orange_gradient_start),
     ("3", "Optimize", "Targeted interventions", performance_green)]
  let step_boxes := steps.enum.flatMap (fun im =>
    match im with
    | (i, num, title, desc, color) =>
      [add_textbox (Inches (1 + (i : ℚ) * (19/5))) (Inches (5/2)) (Inches 1) (Inches 1)
        [mkPara num (some (Pt 48)) true none (some color) (some PP_ALIGN.CENTER)],
       add_textbox (Inches (1 + (i : ℚ) * (19/5))) (Inches (19/5)) (Inches 3) (Inches (3/5))
        [mkPara title (some (Pt 20)) true none (some white) (some PP_ALIGN.CENTER)],
       add_textbox (Inches (1 + (i : ℚ) * (19/5))) (Inches (23/5)) (Inches 3) (Inches 1)
        [mkPara desc (some (Pt 14)) false none (some light_gray) (some PP_ALIGN.CENTER)]])
  pure (add_slide prs ⟨blank_layout, Fill.solid green_gradient_start,
    title_box :: step_boxes,
    "\x27No optimization without measurement.\x27 \x27We use Lighthouse CI to make performance a first-class citizen.\x27"⟩)

/-- Embeds `create_lazy_loading_slide` (source lines 380-436). -/
def create_lazy_loading_slide (prs : Prs) (cs : List (String × RGB)) : Except PyError Prs := do
  let orange_gradient_start ← dictGet cs "orange_gradient_start"
  let white ← dictGet cs "white"
  let light_gray ← dictGet cs "light_gray"
  let performance_green ← dictGet cs "performance_green"
  let title_box := add_textbox (Inches 1) (Inches (1/2)) (Inches (1133/100)) (Inches 1)
    [mkPara "Lazy Loading: Load Only What You Need" (some (Pt 36)) true (some "Roboto")
      (some white) (some PP_ALIGN.CENTER)]
  let before_box := add_textbox (Inches (1/2)) (Inches 2) (Inches 6) (Inches (5/2))
    [mkPara "Before: Eager Loading\n\nimport \x7b CommitteeFormBuilderComponent \x7d\nfrom \x27./committee-form-builder\x27;"
      (some (Pt 14)) false (some "Courier New") (some light_gray) none]
  let after_box := add_textbox (Inches (13/2)) (Inches 2) (Inches 6) (Inches (5/2))
    [mkPara "After: Route-level Lazy Loading\n\n\x7b\n  path: \x27CommitteeFormBuilder/:id\x27,\n  loadChildren: () => import(\x27./features/committee-builder.module\x27)\n    .then(m => m.CommitteeBuilderModule)\n\x7d"
      (some (Pt 14)) false (some "Courier New") (some performance_green) none]
  let impact_box := add_textbox (Inches 2) (Inches 5) (Inches (933/100)) (Inches (3/2))
    [mkPara "Impact: Initial bundle reduced by ~792KB • TTI improved by ~2-3 seconds"
      (some (Pt 20)) true none (some orange_gradient_start) (some PP_ALIGN.CENTER)]
  pure (add_slide prs ⟨blank_layout, Fill.solid orange_gradient_start,
    [title_box, before_box, after_box, impact_box],
    "\x27We\x27ve already started this journey—now we finish it.\x27 Show the dramatic bundle size reduction."⟩)

/-- Embeds `create_onpush_slide` (source lines 438-496). -/
def create_onpush_slide (prs : Prs) (cs : List (String × RGB)) : Except PyError Prs := do
  let purple_gradient_start ← dictGet cs "purple_gradient_start"
  let white ← dictGet cs "white"
  let light_gray ← dictGet cs "light_gray"
  let lighthouse_blue ← dictGet cs "lighthouse_blue"
  let performance_green ← dictGet cs "performance_green"
  let title_box := add_textbox (Inches 1) (Inches (1/2)) (Inches (1133/100)) (Inches 1)
    [mkPara "OnPush: Smarter Change Detection" (some (Pt 36)) true (some "Roboto") (some white)
      (some PP_ALIGN.CENTER)]
  let problem_box := add_textbox (Inches 1) (Inches 2) (Inches (1133/100)) (Inches (4/5))
    [mkPara "The Problem: Every HTTP request triggers change detection across the entire component tree"
      (some (Pt 18)) false none (some light_gray) (some PP_ALIGN.CENTER)]
  let code_box := add_textbox (Inches 2) (Inches 3) (Inches (933/100)) (Inches (3/2))
    [mkPara "@Component(\x7b\n  selector: \x27app-dashboard\x27,\n  templateUrl: \x27./dashboard.component.html\x27,\n  changeDetection: ChangeDetectionStrategy.OnPush\n\x7d)"
      (some (Pt 14)) false (some "Courier New") (some lighthouse_blue) (some PP_ALIGN.CENTER)]
  let impact_box := add_textbox (Inches 2) (Inches 5) (Inches (933/100)) (Inches 1)
    [mkPara "Impact: 40-60% reduction in change detection cycles • TTI improvement: ~1-2 seconds"
      (some (Pt 18)) true none (some performance_green) (some PP_ALIGN.CENTER)]
  pure (add_slide prs ⟨blank_layout, Fill.solid purple_gradient_start,
    [title_box, problem_box, code_box, impact_box],
    "\x27Not every component needs this—start with leaf components.\x27 Show the dramatic reduction in CPU usage."⟩)

/-- Embeds `create_font_loading_slide` (source lines 498-577).  Note the subscript
`colors[\x27accent_cyan\x27]` at source line 559: the key is absent from the table. -/
def create_font_loading_slide (prs : Prs) (cs : List (String × RGB)) : Except PyError Prs := do
  let teal_gradient_start ← dictGet cs "teal_gradient_start"
  let white ← dictGet cs "white"
  let light_gray ← dictGet cs "light_gray"
  let performance_green ← dictGet cs "performance_green"
  let accent_cyan ← dictGet cs "accent_cyan"
  let orange_gradient_start ← dictGet cs "orange_gradient_start"
  let title_box := add_textbox (Inches 1) (Inches (1/2)) (Inches (1133/100)) (Inches 1)
    [mkPara "Async Font Loading: Don\x27t Block the Critical Path" (some (Pt 36)) true
      (some "Roboto") (some white) (some PP_ALIGN.CENTER)]
  let problem_box := add_textbox (Inches 1) (Inches 2) (Inches (1133/100)) (Inches (3/5))
    [mkPara "Current Problem: These block rendering!" (some (Pt 18)) false none
      (some light_gray) (some PP_ALIGN.CENTER)]
  let problem_code_box := add_textbox (Inches 2) (Inches (14/5)) (Inches (933/100)) (Inches (4/5))
    [mkPara "<link href=\"https://fonts.googleapis.com/css2?family=Roboto:wght@300;400;500&display=swap\" rel=\"stylesheet\">"
      (some (Pt 12)) false (some "Courier New") (some (RGBColor 255 100 100)) (some PP_ALIGN.CENTER)]
  let solution_box := add_textbox (Inches 1) (Inches 4) (Inches (1133/100)) (Inches (3/5))
    [mkPara "Optimized Approach: Preconnect + Async Load" (some (Pt 18)) false none
      (some performance_green) (some PP_ALIGN.CENTER)]
  let solution_code_box := add_textbox (Inches 1) (Inches (24/5)) (Inches (1133/100)) (Inches (6/5))
    [mkPara "<!-- Preconnect to speed up DNS/TCP/TLS -->\n<link rel=\"preconnect\" href=\"https://fonts.googleapis.com\">\n<link rel=\"preconnect\" href=\"https://fonts.gstatic.com\" crossorigin>\n\n<!-- Async load with font-display: swap -->\n<link href=\"https://fonts.googleapis.com/css2?family=Roboto:wght@300;400;500&display=swap\"\n      rel=\"stylesheet\" media=\"print\" onload=\"this.media=\x27all\x27\">"
      (some (Pt 10)) false (some "Courier New") (some accent_cyan) (some PP_ALIGN.CENTER)]
  let impact_box := add_textbox (Inches 2) (Inches (31/5)) (Inches (933/100)) (Inches (4/5))
    [mkPara "Impact: FCP improvement of 400-800ms • Better perceived performance"
      (some (Pt 16)) true none (some orange_gradient_start) (some PP_ALIGN.CENTER)]
  pure (add_slide prs ⟨blank_layout, Fill.solid teal_gradient_start,
    [title_box, problem_box, problem_code_box, solution_box, solution_code_box, impact_box],
    "Show the dramatic difference between blocking and non-blocking font loading. Emphasize the FCP improvement."⟩)

/-- Embeds `create_material_modules_slide` (source lines 579-647). -/
def create_material_modules_slide (prs : Prs) (cs : List (String × RGB)) :
    Except PyError Prs := do
  let indigo_gradient_start ← dictGet cs "indigo_gradient_start"
  let white ← dictGet cs "white"
  let light_gray ← dictGet cs "light_gray"
  let performance_green ← dictGet cs "performance_green"
  let orange_gradient_start ← dictGet cs "orange_gradient_start"
  let title_box := add_textbox (Inches 1) (Inches (1/2)) (Inches (1133/100)) (Inches 1)
    [mkPara "Refactor SharedModule: Import Only What You Use" (some (Pt 36)) true
      (some "Roboto") (some white) (some PP_ALIGN.CENTER)]
  let problem_box := add_textbox (Inches 1) (Inches 2) (Inches (1133/100)) (Inches (3/5))
    [mkPara "The Problem: SharedModule imports and exports 25+ Material modules"
      (some (Pt 18)) false none (some light_gray) (some PP_ALIGN.CENTER)]
  let code_box := add_textbox (Inches 2) (Inches (14/5)) (Inches (933/100)) (Inches (3/2))
    [mkPara "// shared.module.ts - Importing EVERYTHING\nimports: [\n  MatDialogModule, MatProgressSpinnerModule, MatIconModule,\n  MatCardModule, MatDatepickerModule, MatFormFieldModule,\n  // ... 20 more modules\n]"
      (some (Pt 12)) false (some "Courier New") (some (RGBColor 255 100 100)) (some PP_ALIGN.CENTER)]
  let solution_box := add_textbox (Inches 1) (Inches (9/2)) (Inches (1133/100)) (Inches (3/5))
    [mkPara "Optimized Approach: Feature-specific imports only" (some (Pt 18)) false none
      (some performance_green) (some PP_ALIGN.CENTER)]
  let impact_box := add_textbox (Inches 2) (Inches (11/2)) (Inches (933/100)) (Inches (4/5))
    [mkPara "Impact: ~200-300KB reduction in vendor bundle • Better tree-shaking"
      (some (Pt 16)) true none (some orange_gradient_start) (some PP_ALIGN.CENTER)]
  pure (add_slide prs ⟨blank_layout, Fill.solid indigo_gradient_start,
    [title_box, problem_box, code_box, solution_box, impact_box],
    "Show the dramatic difference in bundle size. Emphasize that this is about importing only what you actually use."⟩)

/-- Embeds `create_demo_slide` (source lines 649-705). -/
def create_demo_slide (prs : Prs) (cs : List (String × RGB)) : Except PyError Prs := do
  let dark_gradient_start ← dictGet cs "dark_gradient_start"
  let white ← dictGet cs "white"
  let light_gray ← dictGet cs "light_gray"
  let performance_green ← dictGet cs "performance_green"
  let title_box := add_textbox (Inches 1) (Inches (1/2)) (Inches (1133/100)) (Inches 1)
    [mkPara "Watch the Magic Happen" (some (Pt 36)) true (some "Roboto") (some white)
      (some PP_ALIGN.CENTER)]
  let demo_steps : List String :=
    ["1. Here\x27s the current dashboard—watch the metrics",
     "2. I\x27ll apply OnPush to just 3 components",
     "3. Rebuild and re-run Lighthouse",
     "4. Notice the TTI dropped from 8.2s to 5.7s"]
  let demo_box := add_textbox (Inches 2) (Inches 2) (Inches (933/100)) (Inches 3)
    (demo_steps.map (fun step =>
      mkPara step (some (Pt 18)) false none (some light_gray) (some PP_ALIGN.CENTER)))
  let perf_box := add_textbox (Inches 3) (Inches (11/2)) (Inches (733/100)) (Inches 1)
    [mkPara "TTI: 8.2s → 5.7s" (some (Pt 24)) true none (some performance_green)
      (some PP_ALIGN.CENTER)]
  pure (add_slide prs ⟨blank_layout, Fill.solid dark_gradient_start,
    [title_box, demo_box, perf_box],
    "Have a backup video in case of technical difficulties. Show the dramatic improvement in real-time."⟩)

/-- Embeds `create_results_slide` (source lines 707-800).  Note the subscript
`colors[\x27accent_cyan\x27]` at source line 794 inside the row loop. -/
def create_results_slide (prs : Prs) (cs : List (String × RGB)) : Except PyError Prs := do
  let success_gradient_start ← dictGet cs "success_gradient_start"
  let white ← dictGet cs "white"
  let orange_gradient_start ← dictGet cs "orange_gradient_start"
  let performance_green ← dictGet cs "performance_green"
  let accent_cyan ← dictGet cs "accent_cyan"
  let title_box := add_textbox (Inches 1) (Inches (1/2)) (Inches (1133/100)) (Inches 1)
    [mkPara "The Numbers Don\x27t Lie" (some (Pt 36)) true (some "Roboto") (some white)
      (some PP_ALIGN.CENTER)]
  let results : List (String × String × String × String) :=
    [("Performance Score", "45", "78", "+73%"),
     ("FCP", "2.8s", "1.2s", "-57%"),
     ("LCP", "6.4s", "2.3s", "-64%"),
     ("TTI", "8.2s", "3.1s", "-62%"),
     ("Bundle Size", "4.47 MB", "2.1 MB", "-53%")]
  let headers : List String := ["Metric", "Before", "After", "Improvement"]
  let header_boxes := headers.enum.map (fun ih =>
    match ih with
    | (i, header) =>
      add_textbox (Inches (1 + (i : ℚ) * (14/5))) (Inches 2) (Inches (14/5)) (Inches (3/5))
        [mkPara header (some (Pt 16)) true none (some orange_gradient_start)
          (some PP_ALIGN.CENTER)])
  let row_boxes := results.enum.flatMap (fun ir =>
    match ir with
    | (row_idx, metric, before, later, improvement) =>
      [add_textbox (Inches 1) (Inches (14/5 + (row_idx : ℚ) * (3/5))) (Inches (14/5)) (Inches (3/5))
        [mkPara metric (some (Pt 14)) false none (some white) (some PP_ALIGN.CENTER)],
       add_textbox (Inches (19/5)) (Inches (14/5 + (row_idx : ℚ) * (3/5))) (Inches (14/5)) (Inches (3/5))
        [mkPara before (some (Pt 14)) false none (some (RGBColor 255 100 100)) (some PP_ALIGN.CENTER)],
       add_textbox (Inches (33/5)) (Inches (14/5 + (row_idx : ℚ) * (3/5))) (Inches (14/5)) (Inches (3/5))
        [mkPara later (some (Pt 14)) false none (some performance_green) (some PP_ALIGN.CENTER)],
       add_textbox (Inches (47/5)) (Inches (14/5 + (row_idx : ℚ) * (3/5))) (Inches (14/5)) (Inches (3/5))
        [mkPara improvement (some (Pt 14)) true none (some accent_cyan) (some PP_ALIGN.CENTER)]])
  pure (add_slide prs ⟨blank_layout, Fill.solid success_gradient_start,
    title_box :: (header_boxes ++ row_boxes),
    "\x27These aren\x27t theoretical—these are real improvements.\x27 Emphasize the dramatic improvements."⟩)

/-- Embeds `create_roadmap_slide` (source lines 802-872).  Note the subscript
`colors[\x27accent_orange\x27]` at source line 855: the key is absent from the table. -/
def create_roadmap_slide (prs : Prs) (cs : List (String × RGB)) : Except PyError Prs := do
  let future_gradient_start ← dictGet cs "future_gradient_start"
  let white ← dictGet cs "white"
  let performance_green ← dictGet cs "performance_green"
  let light_gray ← dictGet cs "light_gray"
  let accent_orange ← dictGet cs "accent_orange"
  let title_box := add_textbox (Inches 1) (Inches (1/2)) (Inches (1133/100)) (Inches 1)
    [mkPara "The Journey Continues" (some (Pt 36)) true (some "Roboto") (some white)
      (some PP_ALIGN.CENTER)]
  let high_low_items : List String :=
    ["• Image lazy loading with loading=\x27lazy\x27",
     "• Remove unused polyfills",
     "• Enable Brotli compression"]
  let high_low_box := add_textbox (Inches 1) (Inches 2) (Inches (11/2)) (Inches 2)
    (mkPara "High Impact / Low Effort (Do First)" (some (Pt 18)) true none
      (some performance_green) none ::
     high_low_items.map (fun item =>
       mkPara item (some (Pt 14)) false none (some light_gray) none))
  let high_high_items : List String :=
    ["• Migrate to standalone components (Angular 18+)",
     "• Implement virtual scrolling for large lists",
     "• Progressive Web App (PWA) features"]
  let high_high_box := add_textbox (Inches (13/2)) (Inches 2) (Inches (11/2)) (Inches 2)
    (mkPara "High Impact / High Effort (Plan Carefully)" (some (Pt 18)) true none
      (some accent_orange) none ::
     high_high_items.map (fun item =>
       mkPara item (some (Pt 14)) false none (some light_gray) none))
  pure (add_slide prs ⟨blank_layout, Fill.solid future_gradient_start,
    [title_box, high_low_box, high_high_box],
    "Show the strategic approach to optimization. Emphasize that this is just the beginning."⟩)

/-- Embeds `create_cta_slide` (source lines 874-929).  Note the subscript
`colors[\x27accent_orange\x27]` at source line 923. -/
def create_cta_slide (prs : Prs) (cs : List (String × RGB)) : Except PyError Prs := do
  let action_gradient_start ← dictGet cs "action_gradient_start"
  let white ← dictGet cs "white"
  let light_gray ← dictGet cs "light_gray"
  let accent_orange ← dictGet cs "accent_orange"
  let title_box := add_textbox (Inches 1) (Inches (1/2)) (Inches (1133/100)) (Inches 1)
    [mkPara "Performance is a Feature, Not a Nice-to-Have" (some (Pt 36)) true (some "Roboto")
      (some white) (some PP_ALIGN.CENTER)]
  let takeaways : List String :=
    ["1. Add Lighthouse CI to your pipeline today",
     "2. Set budget limits in angular.json",
     "3. Make one optimization per sprint"]
  let takeaways_box := add_textbox (Inches 2) (Inches 2) (Inches (933/100)) (Inches 2)
    (takeaways.map (fun takeaway =>
      mkPara takeaway (some (Pt 20)) false none (some light_gray) (some PP_ALIGN.CENTER)))
  let closing_box := add_textbox (Inches 1) (Inches (9/2)) (Inches (1133/100)) (Inches (3/2))
    [mkPara "Remember: Every millisecond is a vote of confidence in your users."
      (some (Pt 24)) true none (some accent_orange) (some PP_ALIGN.CENTER)]
  pure (add_slide prs ⟨blank_layout, Fill.solid action_gradient_start,
    [title_box, takeaways_box, closing_box],
    "End with energy and conviction. Make it clear this is achievable. Encourage immediate action."⟩)

/-- Embeds `create_qa_slide` (source lines 931-982).  Note the subscript
`colors[\x27accent_cyan\x27]` at source line 962. -/
def create_qa_slide (prs : Prs) (cs : List (String × RGB)) : Except PyError Prs := do
  let discussion_gradient_start ← dictGet cs "discussion_gradient_start"
  let white ← dictGet cs "white"
  let accent_cyan ← dictGet cs "accent_cyan"
  let light_gray ← dictGet cs "light_gray"
  let title_box := add_textbox (Inches 1) (Inches (1/2)) (Inches (1133/100)) (Inches 1)
    [mkPara "Questions & Discussion" (some (Pt 36)) true (some "Roboto") (some white)
      (some PP_ALIGN.CENTER)]
  let resources : List String :=
    ["• Angular Performance Guide",
     "• Lighthouse Documentation",
     "• Web.dev Performance",
     "• Core Web Vitals"]
  let resources_box := add_textbox (Inches 2) (Inches (5/2)) (Inches (933/100)) (Inches 2)
    (mkPara "Key Resources:" (some (Pt 20)) true none (some accent_cyan)
      (some PP_ALIGN.CENTER) ::
     resources.map (fun resource =>
       mkPara resource (some (Pt 16)) false none (some light_gray) (some PP_ALIGN.CENTER)))
  pure (add_slide prs ⟨blank_layout, Fill.solid discussion_gradient_start,
    [title_box, resources_box],
    "Be prepared for technical questions. Have backup slides with more details. Encourage discussion and feedback."⟩)

/-- Embeds `create_thank_you_slide` (source lines 984-1020).  Note the subscript
`colors[\x27accent_orange\x27]` at source line 1014. -/
def create_thank_you_slide (prs : Prs) (cs : List (String × RGB)) : Except PyError Prs := do
  let gratitude_gradient_start ← dictGet cs "gratitude_gradient_start"
  let white ← dictGet cs "white"
  let accent_orange ← dictGet cs "accent_orange"
  let title_box := add_textbox (Inches 1) (Inches 2) (Inches (1133/100)) (Inches (3/2))
    [mkPara "Thank You for Your Time" (some (Pt 36)) true (some "Roboto") (some white)
      (some PP_ALIGN.CENTER)]
  let message_box := add_textbox (Inches 1) (Inches 4) (Inches (1133/100)) (Inches (3/2))
    [mkPara "Let\x27s make the web faster, one optimization at a time." (some (Pt 24)) false none
      (some accent_orange) (some PP_ALIGN.CENTER)]
  pure (add_slide prs ⟨blank_layout, Fill.solid gratitude_gradient_start,
    [title_box, message_box],
    "End on a positive note. Encourage follow-up conversations. Thank the audience for their attention."⟩)

/-- The presentation state set up at source lines 19-23: a fresh presentation whose
slide dimensions are immediately set to 13.33 by 7.5 inches, before any slide exists. -/
def initial_prs : Prs := ⟨Inches (1333/100), Inches (15/2), []⟩

/-- Embeds `create_angular_presentation` (source lines 15-111): the initial setup
followed by the fourteen slide-building calls in source order. -/
def create_angular_presentation : Except PyError Prs := do
  let prs0 := initial_prs
  let prs1 ← create_title_slide prs0 colors
  let prs2 ← create_hook_slide prs1 colors
  let prs3 ← create_lighthouse_metrics_slide prs2 colors
  let prs4 ← create_approach_slide prs3 colors
  let prs5 ← create_lazy_loading_slide prs4 colors
  let prs6 ← create_onpush_slide prs5 colors
  let prs7 ← create_font_loading_slide prs6 colors
  let prs8 ← create_material_modules_slide prs7 colors
  let prs9 ← create_demo_slide prs8 colors
  let prs10 ← create_results_slide prs9 colors
  let prs11 ← create_roadmap_slide prs10 colors
  let prs12 ← create_cta_slide prs11 colors
  let prs13 ← create_qa_slide prs12 colors
  let prs14 ← create_thank_you_slide prs13 colors
  pure prs14

/-- The state after the first six slide-building calls of
`create_angular_presentation` (source lines 70-85). -/
def prs_after_six : Except PyError Prs := do
  let prs1 ← create_title_slide initial_prs colors
  let prs2 ← create_hook_slide prs1 colors
  let prs3 ← create_lighthouse_metrics_slide prs2 colors
  let prs4 ← create_approach_slide prs3 colors
  let prs5 ← create_lazy_loading_slide prs4 colors
  let prs6 ← create_onpush_slide prs5 colors
  pure prs6

/-- The six-slide deck that the first six calls produce. -/
def six_out : Prs :=
  match prs_after_six with
  | Except.ok p => p
  | Except.error _ => initial_prs

/-- The fixed output path of `main` (source line 1030). -/
def output_path : String := "/workspace/Angular_Optimization_TED_Talk.pptx"

/-- Embeds `main` (source lines 1022-1036): build the deck, then save it to
`output_path` and return the path.  The first component records the files written
(path and saved deck); an uncaught exception propagates and nothing is written. -/
def main_run : List (String × Prs) × Except PyError String :=
  match create_angular_presentation with
  | Except.ok prs => ([(output_path, prs)], Except.ok output_path)
  | Except.error e => ([], Except.error e)

theorem bind_err_eq {α β : Type} (e : PyError) (f : α → Except PyError β) :
    (Except.error e >>= f) = Except.error e := rfl

theorem bind_ok_elim {α β : Type} {x : Except PyError α} {f : α → Except PyError β} {out : β}
    (h : (x >>= f) = Except.ok out) : ∃ a, x = Except.ok a ∧ f a = Except.ok out := by
  cases x with
  | error e => rw [bind_err_eq] at h; exact absurd h (by simp)
  | ok a => exact ⟨a, rfl, h⟩

/-- The invariant every slide-building function maintains on completion: the slide
dimensions are untouched, and exactly one slide was appended, created from the blank
layout, with a solid background fill and a non-empty speaker-notes text. -/
def SlideInv (prs out : Prs) : Prop :=
  out.slide_width = prs.slide_width ∧
  out.slide_height = prs.slide_height ∧
  ∃ s : Slide, out.slides = prs.slides ++ [s] ∧
    s.layout = blank_layout ∧ (∃ c, s.background = Fill.solid c) ∧ s.notes ≠ ""

theorem create_title_slide_inv (cs : List (String × RGB)) (prs out : Prs)
    (h : create_title_slide prs cs = Except.ok out) : SlideInv prs out := by
  unfold create_title_slide at h
  obtain ⟨c1, -, h⟩ := bind_ok_elim h
  obtain ⟨c2, -, h⟩ := bind_ok_elim h
  obtain ⟨c3, -, h⟩ := bind_ok_elim h
  obtain ⟨c4, -, h⟩ := bind_ok_elim h
  obtain ⟨c5, -, h⟩ := bind_ok_elim h
  obtain ⟨c6, -, h⟩ := bind_ok_elim h
  have hout := Except.ok.inj h
  subst hout
  refine ⟨rfl, rfl, _, rfl, rfl, ⟨c1, rfl⟩, ?_⟩
  intro hcon
  simp at hcon

theorem create_hook_slide_inv (cs : List (String × RGB)) (prs out : Prs)
    (h : create_hook_slide prs cs = Except.ok out) : SlideInv prs out := by
  unfold create_hook_slide at h
  obtain ⟨c1, -, h⟩ := bind_ok_elim h
  obtain ⟨c2, -, h⟩ := bind_ok_elim h
  obtain ⟨c3, -, h⟩ := bind_ok_elim h
  have hout := Except.ok.inj h
  subst hout
  refine ⟨rfl, rfl, _, rfl, rfl, ⟨c1, rfl⟩, ?_⟩
  intro hcon
  simp at hcon

theorem create_lighthouse_metrics_slide_inv (cs : List (String × RGB)) (prs out : Prs)
    (h : create_lighthouse_metrics_slide prs cs = Except.ok out) : SlideInv prs out := by
  unfold create_lighthouse_metrics_slide at h
  obtain ⟨c1, -, h⟩ := bind_ok_elim h
  obtain ⟨c2, -, h⟩ := bind_ok_elim h
  obtain ⟨c3, -, h⟩ := bind_ok_elim h
  obtain ⟨c4, -, h⟩ := bind_ok_elim h
  obtain ⟨c5, -, h⟩ := bind_ok_elim h
  obtain ⟨c6, -, h⟩ := bind_ok_elim h
  have hout := Except.ok.inj h
  subst hout
  refine ⟨rfl, rfl, _, rfl, rfl, ⟨c1, rfl⟩, ?_⟩
  intro hcon
  simp at hcon

theorem create_approach_slide_inv (cs : List (String × RGB)) (prs out : Prs)
    (h : create_approach_slide prs cs = Except.ok out) : SlideInv prs out := by
  unfold create_approach_slide at h
  obtain ⟨c1, -, h⟩ := bind_ok_elim h
  obtain ⟨c2, -, h⟩ := bind_ok_elim h
  obtain ⟨c3, -, h⟩ := bind_ok_elim h
  obtain ⟨c4, -, h⟩ := bind_ok_elim h
  obtain ⟨c5, -, h⟩ := bind_ok_elim h
  obtain ⟨c6, -, h⟩ := bind_ok_elim h
  have hout := Except.ok.inj h
  subst hout
  refine ⟨rfl, rfl, _, rfl, rfl, ⟨c1, rfl⟩, ?_⟩
  intro hcon
  simp at hcon

theorem create_lazy_loading_slide_inv (cs : List (String × RGB)) (prs out : Prs)
    (h : create_lazy_loading_slide prs cs = Except.ok out) : SlideInv prs out := by
  unfold create_lazy_loading_slide at h
  obtain ⟨c1, -, h⟩ := bind_ok_elim h
  obtain ⟨c2, -, h⟩ := bind_ok_elim h
  obtain ⟨c3, -, h⟩ := bind_ok_elim h
  obtain ⟨c4, -, h⟩ := bind_ok_elim h
  have hout := Except.ok.inj h
  subst hout
  refine ⟨rfl, rfl, _, rfl, rfl, ⟨c1, rfl⟩, ?_⟩
  intro hcon
  simp at hcon

theorem create_onpush_slide_inv (cs : List (String × RGB)) (prs out : Prs)
    (h : create_onpush_slide prs cs = Except.ok out) : SlideInv prs out := by
  unfold create_onpush_slide at h
  obtain ⟨c1, -, h⟩ := bind_ok_elim h
  obtain ⟨c2, -, h⟩ := bind_ok_elim h
  obtain ⟨c3, -, h⟩ := bind_ok_elim h
  obtain ⟨c4, -, h⟩ := bind_ok_elim h
  obtain ⟨c5, -, h⟩ := bind_ok_elim h
  have hout := Except.ok.inj h
  subst hout
  refine ⟨rfl, rfl, _, rfl, rfl, ⟨c1, rfl⟩, ?_⟩
  intro hcon
  simp at hcon

theorem create_font_loading_slide_inv (cs : List (String × RGB)) (prs out : Prs)
    (h : create_font_loading_slide prs cs = Except.ok out) : SlideInv prs out := by
  unfold create_font_loading_slide at h
  obtain ⟨c1, -, h⟩ := bind_ok_elim h
  obtain ⟨c2, -, h⟩ := bind_ok_elim h
  obtain ⟨c3, -, h⟩ := bind_ok_elim h
  obtain ⟨c4, -, h⟩ := bind_ok_elim h
  obtain ⟨c5, -, h⟩ := bind_ok_elim h
  obtain ⟨c6, -, h⟩ := bind_ok_elim h
  have hout := Except.ok.inj h
  subst hout
  refine ⟨rfl, rfl, _, rfl, rfl, ⟨c1, rfl⟩, ?_⟩
  intro hcon
  simp at hcon

theorem create_material_modules_slide_inv (cs : List (String × RGB)) (prs out : Prs)
    (h : create_material_modules_slide prs cs = Except.ok out) : SlideInv prs out := by
  unfold create_material_modules_slide at h
  obtain ⟨c1, -, h⟩ := bind_ok_elim h
  obtain ⟨c2, -, h⟩ := bind_ok_elim h
  obtain ⟨c3, -, h⟩ := bind_ok_elim h
  obtain ⟨c4, -, h⟩ := bind_ok_elim h
  obtain ⟨c5, -, h⟩ := bind_ok_elim h
  have hout := Except.ok.inj h
  subst hout
  refine ⟨rfl, rfl, _, rfl, rfl, ⟨c1, rfl⟩, ?_⟩
  intro hcon
  simp at hcon

theorem create_demo_slide_inv (cs : List (String × RGB)) (prs out : Prs)
    (h : create_demo_slide prs cs = Except.ok out) : SlideInv prs out := by
  unfold create_demo_slide at h
  obtain ⟨c1, -, h⟩ := bind_ok_elim h
  obtain ⟨c2, -, h⟩ := bind_ok_elim h
  obtain ⟨c3, -, h⟩ := bind_ok_elim h
  obtain ⟨c4, -, h⟩ := bind_ok_elim h
  have hout := Except.ok.inj h
  subst hout
  refine ⟨rfl, rfl, _, rfl, rfl, ⟨c1, rfl⟩, ?_⟩
  intro hcon
  simp at hcon

theorem create_results_slide_inv (cs : List (String × RGB)) (prs out : Prs)
    (h : create_results_slide prs cs = Except.ok out) : SlideInv prs out := by
  unfold create_results_slide at h
  obtain ⟨c1, -, h⟩ := bind_ok_elim h
  obtain ⟨c2, -, h⟩ := bind_ok_elim h
  obtain ⟨c3, -, h⟩ := bind_ok_elim h
  obtain ⟨c4, -, h⟩ := bind_ok_elim h
  obtain ⟨c5, -, h⟩ := bind_ok_elim h
  have hout := Except.ok.inj h
  subst hout
  refine ⟨rfl, rfl, _, rfl, rfl, ⟨c1, rfl⟩, ?_⟩
  intro hcon
  simp at hcon

theorem create_roadmap_slide_inv (cs : List (String × RGB)) (prs out : Prs)
    (h : create_roadmap_slide prs cs = Except.ok out) : SlideInv prs out := by
  unfold create_roadmap_slide at h
  obtain ⟨c1, -, h⟩ := bind_ok_elim h
  obtain ⟨c2, -, h⟩ := bind_ok_elim h
  obtain ⟨c3, -, h⟩ := bind_ok_elim h
  obtain ⟨c4, -, h⟩ := bind_ok_elim h
  obtain ⟨c5, -, h⟩ := bind_ok_elim h
  have hout := Except.ok.inj h
  subst hout
  refine ⟨rfl, rfl, _, rfl, rfl, ⟨c1, rfl⟩, ?_⟩
  intro hcon
  simp at hcon

theorem create_cta_slide_inv (cs : List (String × RGB)) (prs out : Prs)
    (h : create_cta_slide prs cs = Except.ok out) : SlideInv prs out := by
  unfold create_cta_slide at h
  obtain ⟨c1, -, h⟩ := bind_ok_elim h
  obtain ⟨c2, -, h⟩ := bind_ok_elim h
  obtain ⟨c3, -, h⟩ := bind_ok_elim h
  obtain ⟨c4, -, h⟩ := bind_ok_elim h
  have hout := Except.ok.inj h
  subst hout
  refine ⟨rfl, rfl, _, rfl, rfl, ⟨c1, rfl⟩, ?_⟩
  intro hcon
  simp at hcon

theorem create_qa_slide_inv (cs : List (String × RGB)) (prs out : Prs)
    (h : create_qa_slide prs cs = Except.ok out) : SlideInv prs out := by
  unfold create_qa_slide at h
  obtain ⟨c1, -, h⟩ := bind_ok_elim h
  obtain ⟨c2, -, h⟩ := bind_ok_elim h
  obtain ⟨c3, -, h⟩ := bind_ok_elim h
  obtain ⟨c4, -, h⟩ := bind_ok_elim h
  have hout := Except.ok.inj h
  subst hout
  refine ⟨rfl, rfl, _, rfl, rfl, ⟨c1, rfl⟩, ?_⟩
  intro hcon
  simp at hcon

theorem create_thank_you_slide_inv (cs : List (String × RGB)) (prs out : Prs)
    (h : create_thank_you_slide prs cs = Except.ok out) : SlideInv prs out := by
  unfold create_thank_you_slide at h
  obtain ⟨c1, -, h⟩ := bind_ok_elim h
  obtain ⟨c2, -, h⟩ := bind_ok_elim h
  obtain ⟨c3, -, h⟩ := bind_ok_elim h
  have hout := Except.ok.inj h
  subst hout
  refine ⟨rfl, rfl, _, rfl, rfl, ⟨c1, rfl⟩, ?_⟩
  intro hcon
  simp at hcon

/-- The fourteen slide-building functions, in the order `create_angular_presentation`
calls them (source lines 70-109). -/
def slide_builders : List (Prs → List (String × RGB) → Except PyError Prs) :=
  [create_title_slide, create_hook_slide, create_lighthouse_metrics_slide,
   create_approach_slide, create_lazy_loading_slide, create_onpush_slide,
   create_font_loading_slide, create_material_modules_slide, create_demo_slide,
   create_results_slide, create_roadmap_slide, create_cta_slide, create_qa_slide,
   create_thank_you_slide]

/-- The deck state after a successful `create_hook_slide` call on the initial
presentation, used to exhibit concrete instances of the invariants. -/
def hook_out : Prs :=
  match create_hook_slide initial_prs colors with
  | Except.ok p => p
  | Except.error _ => initial_prs

/-- Whether an embedded computation completed without raising. -/
def is_ok {α : Type} : Except PyError α → Bool
  | Except.ok _ => true
  | Except.error _ => false

/-- An ambient environment for one invocation of the script; the script reads no
command-line arguments, no environment variables, no files, no clock and no
randomness, so an invocation ignores the world it runs in. -/
structure World where
  env : List (String × String)

/-- One run of `create_angular_presentation` in an ambient world. -/
def run_create (_w : World) : Except PyError Prs := create_angular_presentation

/-- One run of `main` in an ambient world: the files it writes and its outcome. -/
def run_script (_w : World) : List (String × Prs) × Except PyError String := main_run

/-- C1: main is one linear pass of slide-building calls ending in exactly one file
write at the output path.  The code falsifies this: the pass raises a KeyError at
the seventh slide-building call, so main writes no file at all and raises. -/
theorem main_writes_no_file :
    main_run.1 = [] ∧ main_run.2 = Except.error (PyError.keyError "accent_cyan") :=
  ⟨rfl, rfl⟩

/-- C2: every subscript into the literal colors table is claimed to find its key.
The code falsifies this: the keys accent_cyan and accent_orange are absent from the
table, and the six functions below subscript them, so each of those functions
raises a KeyError on the actual table whatever the presentation state is. -/
theorem missing_color_keys :
    colors.find? (fun p => p.1 == "accent_cyan") = none ∧
    colors.find? (fun p => p.1 == "accent_orange") = none ∧
    ∀ prs : Prs,
      create_font_loading_slide prs colors = Except.error (PyError.keyError "accent_cyan") ∧
      create_results_slide prs colors = Except.error (PyError.keyError "accent_cyan") ∧
      create_roadmap_slide prs colors = Except.error (PyError.keyError "accent_orange") ∧
      create_cta_slide prs colors = Except.error (PyError.keyError "accent_orange") ∧
      create_qa_slide prs colors = Except.error (PyError.keyError "accent_cyan") ∧
      create_thank_you_slide prs colors = Except.error (PyError.keyError "accent_orange") :=
  ⟨rfl, rfl, fun _ => ⟨rfl, rfl, rfl, rfl, rfl, rfl⟩⟩

/-- C3: every call of `create_angular_presentation` raises a KeyError for the key
accent_cyan inside `create_font_loading_slide`, the seventh slide-building call:
the first six calls complete and produce a six-slide deck, the seventh raises on
that deck, and main propagates the error without reaching the save call, so no
file is written. -/
theorem font_loading_key_error :
    create_angular_presentation = Except.error (PyError.keyError "accent_cyan") ∧
    prs_after_six = Except.ok six_out ∧
    six_out.slides.length = 6 ∧
    create_font_loading_slide six_out colors = Except.error (PyError.keyError "accent_cyan") ∧
    main_run = ([], Except.error (PyError.keyError "accent_cyan")) :=
  ⟨rfl, rfl, rfl, rfl, rfl⟩

/-- C4: the output file is written only after all slide-building calls completed;
since a slide-building call raises, main writes no output file at all. -/
theorem no_incomplete_deck_saved :
    (∃ e, create_angular_presentation = Except.error e) ∧ main_run.1 = [] :=
  ⟨⟨PyError.keyError "accent_cyan", rfl⟩, rfl⟩

/-- C5: the script catches nothing, so whatever error the deck-building step raises
is exactly the error main terminates with. -/
theorem errors_propagate_verbatim :
    ∀ e : PyError, create_angular_presentation = Except.error e →
      main_run.2 = Except.error e := by
  intro e h
  rw [show create_angular_presentation = Except.error (PyError.keyError "accent_cyan") from rfl]
    at h
  injection h with h2
  subst h2
  rfl

theorem errors_propagate_verbatim_witness :
    main_run.2 = Except.error (PyError.keyError "accent_cyan") :=
  errors_propagate_verbatim (PyError.keyError "accent_cyan") rfl

/-- C6: the script takes no input and all content is static, so any two runs of the
embedded builder, and of main, produce identical outcomes. -/
theorem create_angular_presentation_deterministic :
    ∀ w1 w2 : World, run_create w1 = run_create w2 ∧ run_script w1 = run_script w2 :=
  fun _ _ => ⟨rfl, rfl⟩

theorem create_angular_presentation_deterministic_witness :
    run_create ⟨[]⟩ = run_create ⟨[("LANG", "C")]⟩ ∧
      run_script ⟨[]⟩ = run_script ⟨[("LANG", "C")]⟩ :=
  create_angular_presentation_deterministic ⟨[]⟩ ⟨[("LANG", "C")]⟩

/-- C7: a completed run is claimed to yield a fourteen-slide deck.  The code
falsifies the premise: no run of `create_angular_presentation` ever completes, and
the deck built by the calls that do complete has six slides, each holding at least
one positioned text element. -/
theorem no_completed_run :
    is_ok create_angular_presentation = false ∧
    six_out.slides.length = 6 ∧
    six_out.slides.all (fun s => !s.shapes.isEmpty) = true :=
  ⟨rfl, rfl, rfl⟩

/-- C8: whenever any of the fourteen slide-building functions completes, it has
appended exactly one slide, created from the blank layout `slide_layouts[6]`, with
the background a single solid fill color and a non-empty speaker-notes text, and
it has touched nothing else of the presentation. -/
theorem slide_builder_invariant :
    ∀ f ∈ slide_builders, ∀ (cs : List (String × RGB)) (prs out : Prs),
      f prs cs = Except.ok out → SlideInv prs out := by
  intro f hf
  simp only [slide_builders, List.mem_cons, List.not_mem_nil, or_false] at hf
  rcases hf with rfl | rfl | rfl | rfl | rfl | rfl | rfl | rfl | rfl | rfl | rfl | rfl | rfl | rfl
  · exact create_title_slide_inv
  · exact create_hook_slide_inv
  · exact create_lighthouse_metrics_slide_inv
  · exact create_approach_slide_inv
  · exact create_lazy_loading_slide_inv
  · exact create_onpush_slide_inv
  · exact create_font_loading_slide_inv
  · exact create_material_modules_slide_inv
  · exact create_demo_slide_inv
  · exact create_results_slide_inv
  · exact create_roadmap_slide_inv
  · exact create_cta_slide_inv
  · exact create_qa_slide_inv
  · exact create_thank_you_slide_inv

theorem slide_builder_invariant_witness : SlideInv initial_prs hook_out :=
  slide_builder_invariant create_hook_slide (by simp [slide_builders]) colors initial_prs
    hook_out rfl

/-- C9: before any slide is added the presentation dimensions are set to 13.33 by
7.5 inches, and no slide-building function changes them afterwards. -/
theorem slide_dimensions_set_before_any_slide :
    initial_prs.slides = [] ∧
    initial_prs.slide_width = Inches (1333/100) ∧
    initial_prs.slide_height = Inches (15/2) ∧
    ∀ f ∈ slide_builders, ∀ (cs : List (String × RGB)) (prs out : Prs),
      f prs cs = Except.ok out →
        out.slide_width = prs.slide_width ∧ out.slide_height = prs.slide_height := by
  refine ⟨rfl, rfl, rfl, ?_⟩
  intro f hf
  simp only [slide_builders, List.mem_cons, List.not_mem_nil, or_false] at hf
  rcases hf with rfl | rfl | rfl | rfl | rfl | rfl | rfl | rfl | rfl | rfl | rfl | rfl | rfl | rfl
  · exact fun cs prs out h => ⟨(create_title_slide_inv cs prs out h).1,
      (create_title_slide_inv cs prs out h).2.1⟩
  · exact fun cs prs out h => ⟨(create_hook_slide_inv cs prs out h).1,
      (create_hook_slide_inv cs prs out h).2.1⟩
  · exact fun cs prs out h => ⟨(create_lighthouse_metrics_slide_inv cs prs out h).1,
      (create_lighthouse_metrics_slide_inv cs prs out h).2.1⟩
  · exact fun cs prs out h => ⟨(create_approach_slide_inv cs prs out h).1,
      (create_approach_slide_inv cs prs out h).2.1⟩
  · exact fun cs prs out h => ⟨(create_lazy_loading_slide_inv cs prs out h).1,
      (create_lazy_loading_slide_inv cs prs out h).2.1⟩
  · exact fun cs prs out h => ⟨(create_onpush_slide_inv cs prs out h).1,
      (create_onpush_slide_inv cs prs out h).2.1⟩
  · exact fun cs prs out h => ⟨(create_font_loading_slide_inv cs prs out h).1,
      (create_font_loading_slide_inv cs prs out h).2.1⟩
  · exact fun cs prs out h => ⟨(create_material_modules_slide_inv cs prs out h).1,
      (create_material_modules_slide_inv cs prs out h).2.1⟩
  · exact fun cs prs out h => ⟨(create_demo_slide_inv cs prs out h).1,
      (create_demo_slide_inv cs prs out h).2.1⟩
  · exact fun cs prs out h => ⟨(create_results_slide_inv cs prs out h).1,
      (create_results_slide_inv cs prs out h).2.1⟩
  · exact fun cs prs out h => ⟨(create_roadmap_slide_inv cs prs out h).1,
      (create_roadmap_slide_inv cs prs out h).2.1⟩
  · exact fun cs prs out h => ⟨(create_cta_slide_inv cs prs out h).1,
      (create_cta_slide_inv cs prs out h).2.1⟩
  · exact fun cs prs out h => ⟨(create_qa_slide_inv cs prs out h).1,
      (create_qa_slide_inv cs prs out h).2.1⟩
  · exact fun cs prs out h => ⟨(create_thank_you_slide_inv cs prs out h).1,
      (create_thank_you_slide_inv cs prs out h).2.1⟩

theorem slide_dimensions_witness :
    hook_out.slide_width = initial_prs.slide_width ∧
      hook_out.slide_height = initial_prs.slide_height :=
  slide_dimensions_set_before_any_slide.2.2.2 create_hook_slide (by simp [slide_builders])
    colors initial_prs hook_out rfl
